import Mathlib

/-!
Verification of the credit-ledger / exam-lifecycle core of the language-exam
web application.  Each definition below is a shallow embedding of one function
or route handler of the repository; machine-level JSON values are modelled by
the inductive `JsonVal`, the relational store by the `DB` structure, and each
route handler by a pure function from a `DB` (plus the request data and the
outcomes of external collaborators) to a result and an updated `DB`.
Prisma interactive transactions roll back all of their writes when the callback
throws; the embeddings model this by discarding the tentative state.
-/

namespace Profile

/-- JSON-like values as deserialized from request bodies / stored answer keys.
JS `null` and `undefined` are both represented by `nullV` (the source treats
them identically in `compareAnswers`). -/
inductive JsonVal where
  | nullV : JsonVal
  | str : String → JsonVal
  | bool : Bool → JsonVal
  | num : Int → JsonVal
  | arr : List JsonVal → JsonVal
deriving Repr

/-- JS strict equality (`===`, as used by `Array.prototype.includes` via
SameValueZero) on the modelled value universe: primitive values compare
structurally, while two distinct array objects are never `===`-equal
(reference equality; deserialized JSON literals are distinct objects). -/
def strictEq : JsonVal → JsonVal → Bool
  | .nullV, .nullV => true
  | .str a, .str b => a == b
  | .bool a, .bool b => a == b
  | .num a, .num b => a == b
  | _, _ => false

mutual
/-- JS `String(·)` conversion on the modelled values.  Arrays are joined with
commas; a `null`/`undefined` element stringifies to the empty string inside an
array but to `"null"` at top level, as in JS. -/
def jsToString : JsonVal → String
  | .nullV => "null"
  | .str s => s
  | .bool b => if b then "true" else "false"
  | .num n => toString n
  | .arr xs => jsArrToString xs

/-- JS `Array.prototype.toString`: elements joined with commas. -/
def jsArrToString : List JsonVal → String
  | [] => ""
  | [v] => jsElemToString v
  | v :: vs => jsElemToString v ++ "," ++ jsArrToString vs

/-- One array element under JS array stringification: null becomes empty. -/
def jsElemToString : JsonVal → String
  | .nullV => ""
  | v => jsToString v
end

/-- `compareAnswers(userAnswer, correctAnswer)` from the exam submit route:
null/undefined user answers are incorrect; array correct answers require equal
lengths and every correct value to be `includes`-contained in the submission;
string correct answers compare trimmed and lower-cased against
`String(userAnswer)`; boolean correct answers accept a native boolean or its
string form; any other shape is incorrect. -/
def compareAnswers (userAnswer correctAnswer : JsonVal) : Bool :=
  match userAnswer with
  | .nullV => false
  | _ =>
    match correctAnswer with
    | .arr cs =>
      match userAnswer with
      | .arr us =>
        if cs.length != us.length then false
        else cs.all (fun v => us.any (fun u => strictEq u v))
      | _ => false
    | .str c =>
      (jsToString userAnswer).trim.toLower == c.trim.toLower
    | .bool c =>
      match userAnswer with
      | .bool u => u == c
      | .str u => u.toLower == (if c then "true" else "false")
      | _ => false
    | _ => false

/-- `calculateBandScore(percentage)` from the exam submit route: the fixed
step table from percentage correct to IELTS band. -/
def calculateBandScore (percentage : ℚ) : ℚ :=
  if percentage ≥ 100 then 9
  else if percentage ≥ 90 then 8.5
  else if percentage ≥ 80 then 8
  else if percentage ≥ 70 then 7.5
  else if percentage ≥ 60 then 7
  else if percentage ≥ 50 then 6.5
  else if percentage ≥ 40 then 6
  else if percentage ≥ 30 then 5.5
  else if percentage ≥ 20 then 5
  else if percentage ≥ 10 then 4.5
  else if percentage > 0 then 4
  else 0

/-- The submit route's percentage computation:
`totalQuestions > 0 ? (correctCount / totalQuestions) * 100 : 0`. -/
def percentageOf (correctCount totalQuestions : Nat) : ℚ :=
  if 0 < totalQuestions then ((correctCount : ℚ) / (totalQuestions : ℚ)) * 100 else 0

/-- The `type` column of `CreditTransaction` (the ledger-entry kind). -/
inductive TxType where
  | PURCHASE | USAGE | USAGE_FAIL | GRANT | REFUND
deriving DecidableEq, Repr, BEq

/-- One row of the `CreditTransaction` table (a ledger entry).  `txId` plays
the role of the generated primary key; `stripePaymentIntentId` is the unique
external payment reference used as the idempotency key. -/
structure CreditTransaction where
  txId : Nat
  userId : String
  amount : Int
  txType : TxType
  stripePaymentIntentId : Option String
  reason : String
deriving Repr

/-- The caller-supplied columns of a ledger row to be inserted
(`db.creditTransaction.create`); the store assigns the primary key. -/
structure TxData where
  userId : String
  amount : Int
  txType : TxType
  stripePaymentIntentId : Option String
  reason : String
deriving Repr

/-- The `role` column of the `User` table. -/
inductive Role where
  | USER | ADMIN
deriving DecidableEq, Repr, BEq

/-- One row of the `User` table, restricted to the fields the credit core
reads or writes (`credits` is the cached balance). -/
structure User where
  id : String
  email : String
  credits : Int
  role : Role
deriving Repr

/-- The `status` column of `ExamHistory`. -/
inductive ExamStatus where
  | IN_PROGRESS | COMPLETED | FAILED
deriving DecidableEq, Repr, BEq

/-- The `examType` column of `ExamHistory`. -/
inductive ExamType where
  | READING | LISTENING | WRITING | SPEAKING
deriving DecidableEq, Repr, BEq

/-- Writing prompt task type (`prompt.taskType`). -/
inductive TaskType where
  | TASK_1 | TASK_2
deriving DecidableEq, Repr, BEq

/-- One objectively-graded question row (`readingQuestion` /
`listeningQuestion`), restricted to the fields the submit route reads. -/
structure Question where
  id : String
  correctAnswer : JsonVal
deriving Repr

/-- One row of the `ExamHistory` table (an exam session).  `answers` models
the `answers` component of the `jsonData` blob after submission, and
`promptTaskType` the `jsonData.prompt.taskType` stored at start of a WRITING
exam (`none` when `jsonData` carries no prompt). -/
structure ExamHistory where
  id : String
  userId : String
  examType : ExamType
  status : ExamStatus
  score : Option ℚ
  aiCost : Option ℚ
  answers : List (String × JsonVal)
  promptTaskType : Option TaskType
deriving Repr

/-- The relational store: the tables the credit/exam core touches, plus the
primary-key generator for ledger rows. -/
structure DB where
  users : List User
  transactions : List CreditTransaction
  examHistories : List ExamHistory
  readingQuestions : List Question
  listeningQuestions : List Question
  nextTxId : Nat
deriving Repr

/-- `db.user.findUnique({ where: { id } })`. -/
def findUser (db : DB) (uid : String) : Option User :=
  db.users.find? (fun u => u.id == uid)

/-- `db.user.update({ where: { id: uid }, data })`: rewrite the matching row
with `f`, leaving every other row unchanged. -/
def updateUserWith (db : DB) (uid : String) (f : User → User) : DB :=
  { db with users := db.users.map (fun u => if u.id == uid then f u else u) }

/-- `db.user.update` with `credits: { increment: delta } }` (a decrement is a
negative `delta`). -/
def updateUserCredits (db : DB) (uid : String) (delta : Int) : DB :=
  updateUserWith db uid (fun u => { u with credits := u.credits + delta })

/-- `db.creditTransaction.create({ data })`: insert one ledger row under a
fresh primary key. -/
def appendTx (db : DB) (t : TxData) : DB :=
  { db with
      transactions :=
        ⟨db.nextTxId, t.userId, t.amount, t.txType, t.stripePaymentIntentId, t.reason⟩
          :: db.transactions,
      nextTxId := db.nextTxId + 1 }

/-- `db.creditTransaction.update({ where: { id }, data: { reason } })`:
the refund handler's textual annotation of the original purchase row. -/
def annotateTx (db : DB) (tid : Nat) (newReason : String) : DB :=
  { db with
      transactions :=
        db.transactions.map
          (fun t => if t.txId == tid then { t with reason := newReason } else t) }

/-- `db.creditTransaction.findUnique({ where: { stripePaymentIntentId } })`:
the webhook's idempotency lookup. -/
def findTxByIntent (db : DB) (pi : String) : Option CreditTransaction :=
  db.transactions.find? (fun t => t.stripePaymentIntentId == some pi)

/-- `db.creditTransaction.findUnique({ where: { id } })`. -/
def findTxById (db : DB) (tid : Nat) : Option CreditTransaction :=
  db.transactions.find? (fun t => t.txId == tid)

/-- Sum of the `amount` values of all of a user's ledger entries. -/
def ledgerSum (db : DB) (uid : String) : Int :=
  ((db.transactions.filter (fun t => t.userId == uid)).map (fun t => t.amount)).sum

/-- The cached balance of a user (0 when the user row is absent). -/
def creditsOf (db : DB) (uid : String) : Int :=
  match findUser db uid with
  | some u => u.credits
  | none => 0

/-- The ledger invariant: every user's cached `credits` equals the sum of the
amounts of that user's ledger entries. -/
def Balanced (db : DB) : Prop :=
  ∀ u ∈ db.users, u.credits = ledgerSum db u.id

/-- Well-formedness of the primary-key generator: every existing ledger row's
key is below `nextTxId`, so a freshly inserted row never collides. -/
def TxIdsFresh (db : DB) : Prop :=
  ∀ t ∈ db.transactions, t.txId < db.nextTxId

/-- One credit pack from `CREDIT_PACKS` in the payments configuration. -/
structure CreditPack where
  id : String
  name : String
  price : ℚ
  credits : Int
deriving Repr

/-- The fixed `CREDIT_PACKS` table of the payments configuration. -/
def CREDIT_PACKS : List CreditPack :=
  [⟨"pack_a", "Pack A - Starter", 9.99, 2⟩,
   ⟨"pack_b", "Pack B - Standard", 19.99, 5⟩,
   ⟨"pack_c", "Pack C - Premium", 44.99, 15⟩]

/-- `getCreditPackById(packId)`: lookup in `CREDIT_PACKS`, `null` when the id
is unknown. -/
def getCreditPackById (packId : String) : Option CreditPack :=
  CREDIT_PACKS.find? (fun p => p.id == packId)

/-- `verifyAdminAccess`: resolve the authenticated caller and require the
`ADMIN` role (`null` otherwise).  Token mechanics are a collaborator concern;
the embedding starts from the already-verified caller id. -/
def verifyAdminAccess (db : DB) (callerId : String) : Option User :=
  match findUser db callerId with
  | some u => if u.role == .ADMIN then some u else none
  | none => none

/-- Outcome of the Stripe webhook's `handleCheckoutSessionCompleted`.  Every
constructor except `updateFailed` ends in the route answering HTTP 200
`{received: true}`; `updateFailed` models the Prisma error thrown when the
user row is absent (caught by the route as a 500). -/
inductive WebhookOutcome where
  | invalidMetadata
  | alreadyProcessed
  | invalidPack
  | credited : Int → WebhookOutcome
  | updateFailed
deriving DecidableEq, Repr

/-- Whether a webhook outcome is answered with HTTP 200. -/
def WebhookOutcome.isSuccess : WebhookOutcome → Bool
  | .updateFailed => false
  | _ => true

/-- The valid-metadata path of `handleCheckoutSessionCompleted`: the
idempotency lookup on `stripePaymentIntentId`, pack resolution, then in one
transaction the credit increment and the `PURCHASE` ledger insert carrying the
payment intent id. -/
def handleCheckoutValid (db : DB) (uid pid pi : String) : WebhookOutcome × DB :=
  match findTxByIntent db pi with
  | some _ => (.alreadyProcessed, db)
  | none =>
    match getCreditPackById pid with
    | none => (.invalidPack, db)
    | some pack =>
      match findUser db uid with
      | none => (.updateFailed, db)
      | some _ =>
        let db1 := updateUserCredits db uid pack.credits
        let db2 := appendTx db1
          ⟨uid, pack.credits, .PURCHASE, some pi, "Purchased " ++ pack.name⟩
        (.credited pack.credits, db2)

/-- `handleCheckoutSessionCompleted(session)`: validate the metadata (missing
or empty — JS falsy — fields are modelled as `none`), then run the
valid-event path. -/
def handleCheckoutSessionCompleted (db : DB)
    (userId packId paymentIntentId : Option String) : WebhookOutcome × DB :=
  match userId, packId, paymentIntentId with
  | some uid, some pid, some pi => handleCheckoutValid db uid pid pi
  | _, _, _ => (.invalidMetadata, db)

/-- Outcome of the admin refund route, mirroring its HTTP statuses. -/
inductive RefundOutcome where
  | forbidden
  | txNotFound
  | notPurchase
  | noPaymentIntent
  | alreadyRefunded
  | stripeError
  | refunded
deriving DecidableEq, Repr

/-- Result of the refund route: its outcome, the final store, and whether the
external Stripe reversal (`stripe.refunds.create`) was invoked. -/
structure RefundResult where
  outcome : RefundOutcome
  db : DB
  stripeInvoked : Bool
deriving Repr

/-- The admin refund route: RBAC check, load the transaction, require a
refundable `PURCHASE` with a payment intent, the `REFUND`-by-intent
idempotency check, the external Stripe reversal (its success or failure is the
`stripeOk` parameter), then in one transaction decrement the user's credits,
annotate the original row's reason, and insert the negative `REFUND` row. -/
def refundPOST (db : DB) (callerId : String) (transactionId : Nat)
    (stripeOk : Bool) : RefundResult :=
  match findUser db callerId with
  | none => ⟨.forbidden, db, false⟩
  | some adminUser =>
    if adminUser.role != .ADMIN then ⟨.forbidden, db, false⟩
    else
      match findTxById db transactionId with
      | none => ⟨.txNotFound, db, false⟩
      | some transaction =>
        if transaction.txType != .PURCHASE then ⟨.notPurchase, db, false⟩
        else
          match transaction.stripePaymentIntentId with
          | none => ⟨.noPaymentIntent, db, false⟩
          | some pi =>
            match db.transactions.find? (fun r =>
                r.stripePaymentIntentId == some pi && r.txType == .REFUND) with
            | some _ => ⟨.alreadyRefunded, db, false⟩
            | none =>
              if !stripeOk then ⟨.stripeError, db, true⟩
              else
                let db1 := updateUserCredits db transaction.userId (-transaction.amount)
                let db2 := annotateTx db1 transaction.txId
                  (transaction.reason ++ " - REFUNDED")
                let db3 := appendTx db2
                  ⟨transaction.userId, -transaction.amount, .REFUND, some pi,
                    "Refund of " ++ transaction.reason⟩
                ⟨.refunded, db3, true⟩

/-- Outcome of the start-exam route, mirroring its HTTP statuses (404 user
missing, 402 insufficient credits, 503 content unavailable, 201 started). -/
inductive StartOutcome where
  | userNotFound
  | insufficientCredits
  | contentUnavailable
  | started : String → StartOutcome
deriving DecidableEq, Repr

/-- The body of the start-exam Prisma transaction: deduct one credit, insert
the `-1 USAGE` ledger row, select content and create the `IN_PROGRESS`
session.  All four content branches throw `No published ... available` exactly
when the published-content list for the requested type is empty (for SPEAKING,
when any of the three parts is empty); `publishedCount` is the number of
selectable content units for the requested type, and the thrown error is
`none` — Prisma then rolls back every write of the callback. -/
def startExamTxn (db : DB) (uid : String) (examType : ExamType)
    (publishedCount : Nat) (newExamId : String) : Option DB :=
  let db1 := updateUserCredits db uid (-1)
  let db2 := appendTx db1 ⟨uid, -1, .USAGE, none, "Started exam"⟩
  if publishedCount == 0 then none
  else some
    { db2 with
        examHistories :=
          ⟨newExamId, uid, examType, .IN_PROGRESS, none, none, [], none⟩
            :: db2.examHistories }

/-- The start-exam route: check the caller exists and has at least one
credit, run the content-selection transaction, and on a `No published ...`
failure apply the catch-block compensation (credit increment plus a
`+1 USAGE_FAIL` ledger row) to the store left after the rollback. -/
def startExam (db : DB) (uid : String) (examType : ExamType)
    (publishedCount : Nat) (newExamId : String) : StartOutcome × DB :=
  match findUser db uid with
  | none => (.userNotFound, db)
  | some user =>
    if user.credits < 1 then (.insufficientCredits, db)
    else
      match startExamTxn db uid examType publishedCount newExamId with
      | some db1 => (.started newExamId, db1)
      | none =>
        let db1 := updateUserCredits db uid 1
        let db2 := appendTx db1
          ⟨uid, 1, .USAGE_FAIL, none,
            "Credit restored - no published content available"⟩
        (.contentUnavailable, db2)

/-- Outcome of the generic exam submit route, mirroring its HTTP statuses. -/
inductive SubmitOutcome where
  | notFound
  | forbidden
  | alreadySubmitted
  | submitted : Option ℚ → SubmitOutcome
deriving DecidableEq, Repr

/-- `db.examHistory.findUnique({ where: { id } })`. -/
def findExam (db : DB) (examId : String) : Option ExamHistory :=
  db.examHistories.find? (fun e => e.id == examId)

/-- `db.examHistory.update({ where: { id }, data })`. -/
def updateExam (db : DB) (examId : String) (f : ExamHistory → ExamHistory) : DB :=
  { db with
      examHistories :=
        db.examHistories.map (fun e => if e.id == examId then f e else e) }

/-- The generic exam submit route: load the session (404 if absent, 403 if
the caller is not the owner, 400 if already `COMPLETED`); for READING /
LISTENING fetch the answered questions, judge each answer with
`compareAnswers`, convert the fraction correct to a band score; for WRITING /
SPEAKING store the raw answers with no score; finally mark the session
`COMPLETED` with the score and the submitted answers. -/
def submitExam (db : DB) (callerId examId : String)
    (answers : List (String × JsonVal)) : SubmitOutcome × DB :=
  match findExam db examId with
  | none => (.notFound, db)
  | some examHistory =>
    if examHistory.userId != callerId then (.forbidden, db)
    else if examHistory.status == .COMPLETED then (.alreadySubmitted, db)
    else
      let questions : List Question :=
        match examHistory.examType with
        | .READING =>
          db.readingQuestions.filter (fun q => answers.any (fun a => a.fst == q.id))
        | .LISTENING =>
          db.listeningQuestions.filter (fun q => answers.any (fun a => a.fst == q.id))
        | _ => []
      let results : List (String × Bool) :=
        questions.map (fun q =>
          (q.id, compareAnswers ((answers.lookup q.id).getD .nullV) q.correctAnswer))
      let score : Option ℚ :=
        if examHistory.examType == .READING || examHistory.examType == .LISTENING then
          some (calculateBandScore
            (percentageOf (results.filter (fun r => r.snd)).length results.length))
        else none
      let db1 := updateExam db examId (fun e =>
        { e with status := .COMPLETED, score := score, answers := answers })
      (.submitted score, db1)

/-- The grading collaborator's result shape (`WritingGradingResult`). -/
structure WritingGradingResult where
  score : ℚ
  taskResponse : ℚ
  coherence : ℚ
  vocabulary : ℚ
  grammar : ℚ
  feedback : String
  improvedAnswerExample : String
deriving Repr

/-- Token usage and dollar cost of one grading call (`GradingCost`). -/
structure GradingCost where
  inputTokens : Nat
  outputTokens : Nat
  cost : ℚ
deriving Repr

/-- JS `text.trim().split(/\s+/).length`: the word count the fallback grader
and the route compute.  Splitting the empty string yields one (empty) field
in JS. -/
def jsWordCount (text : String) : Nat :=
  let t := text.trim
  if t == "" then 1
  else ((t.split (fun c => c.isWhitespace)).filter (fun w => w != "")).length

/-- The fallback grader's sequence of word-count threshold reassignments of
`estimatedScore`, starting from 5.0. -/
def fallbackScore (taskType : TaskType) (wordCount : Nat) : ℚ :=
  let estimatedScore : ℚ := 5.0
  let estimatedScore :=
    if wordCount ≥ 150 && taskType == .TASK_1 then 6.0
    else if wordCount ≥ 250 && taskType == .TASK_2 then 6.0
    else estimatedScore
  let estimatedScore :=
    if wordCount ≥ 250 && taskType == .TASK_1 then 6.5
    else if wordCount ≥ 300 && taskType == .TASK_2 then 6.5
    else estimatedScore
  if wordCount ≥ 300 && taskType == .TASK_1 then 7.0
  else if wordCount ≥ 350 && taskType == .TASK_2 then 7.0
  else estimatedScore

/-- `gradeWritingEssayWithFallback`: forward the grading collaborator's answer
when it succeeds (`ai = some ...`); on any failure (`ai = none`) build the
deterministic fallback result from the submission's word count and task type,
with a zero-token zero-dollar cost.  The prompt topic and time spent feed only
the external call. -/
def gradeWritingEssayWithFallback (taskType : TaskType) (_topic : String)
    (userText : String) (_timeSpent : Option Nat)
    (ai : Option (WritingGradingResult × GradingCost)) :
    WritingGradingResult × GradingCost :=
  match ai with
  | some r => r
  | none =>
    let wordCount := jsWordCount userText
    let estimatedScore := fallbackScore taskType wordCount
    let minWords : Nat := if taskType == .TASK_1 then 150 else 250
    (⟨estimatedScore, estimatedScore, estimatedScore, estimatedScore, estimatedScore,
      "Your response has " ++ toString wordCount ++ " words. This "
        ++ (if wordCount ≥ minWords then "meets" else "falls below")
        ++ " the minimum word count requirements. Practice writing longer, "
        ++ "more detailed responses to improve your score.",
      "AI grading service temporarily unavailable. Please try again later."⟩,
     ⟨0, 0, 0⟩)

/-- Outcome of the writing submit route, mirroring its HTTP statuses. -/
inductive WritingOutcome where
  | notFound
  | forbidden
  | alreadySubmitted
  | invalidExamType
  | promptMissing
  | graded : ℚ → WritingOutcome
deriving DecidableEq, Repr

/-- The writing submit route: load the session (404/403/400 checks as in the
generic route, plus a 400 when the session is not a WRITING exam or its stored
data has no prompt), grade via `gradeWritingEssayWithFallback`, then mark the
session `COMPLETED` with the result's score, the grading cost, and the
submitted text.  The grading collaborator's outcome is the `ai` parameter. -/
def submitWritingPOST (db : DB) (callerId examId : String) (text : String)
    (timeSpent : Option Nat)
    (ai : Option (WritingGradingResult × GradingCost)) : WritingOutcome × DB :=
  match findExam db examId with
  | none => (.notFound, db)
  | some examHistory =>
    if examHistory.userId != callerId then (.forbidden, db)
    else if examHistory.status == .COMPLETED then (.alreadySubmitted, db)
    else if examHistory.examType != .WRITING then (.invalidExamType, db)
    else
      match examHistory.promptTaskType with
      | none => (.promptMissing, db)
      | some taskType =>
        let graded := gradeWritingEssayWithFallback taskType "" text timeSpent ai
        let db1 := updateExam db examId (fun e =>
          { e with
              status := .COMPLETED,
              score := some graded.fst.score,
              aiCost := some graded.snd.cost,
              answers := [("text", .str text)] })
        (.graded graded.fst.score, db1)

/-- Outcome of the admin grant/revoke credit routes. -/
inductive GrantOutcome where
  | unauthorized
  | validationFailed
  | userNotFound
  | insufficientCredits
  | granted
  | revoked
deriving DecidableEq, Repr

/-- The admin grant-credits route: admin RBAC, zod validation of the amount
(integer 1..1000), target lookup, then in one transaction increment the
user's credits and insert the positive `GRANT` ledger row. -/
def grantCreditsPOST (db : DB) (callerId uid : String) (amount : Int)
    (reason : String) : GrantOutcome × DB :=
  match verifyAdminAccess db callerId with
  | none => (.unauthorized, db)
  | some _ =>
    if amount < 1 || amount > 1000 then (.validationFailed, db)
    else
      match findUser db uid with
      | none => (.userNotFound, db)
      | some _ =>
        let db1 := updateUserCredits db uid amount
        let db2 := appendTx db1 ⟨uid, amount, .GRANT, none, reason⟩
        (.granted, db2)

/-- The admin revoke-credits route: as the grant route, plus the
sufficient-balance check, then decrement the user's credits and insert the
negative ledger row (recorded with type `REFUND` in the source). -/
def revokeCreditsPOST (db : DB) (callerId uid : String) (amount : Int)
    (reason : String) : GrantOutcome × DB :=
  match verifyAdminAccess db callerId with
  | none => (.unauthorized, db)
  | some _ =>
    if amount < 1 || amount > 1000 then (.validationFailed, db)
    else
      match findUser db uid with
      | none => (.userNotFound, db)
      | some user =>
        if user.credits < amount then (.insufficientCredits, db)
        else
          let db1 := updateUserCredits db uid (-amount)
          let db2 := appendTx db1 ⟨uid, -amount, .REFUND, none, reason⟩
          (.revoked, db2)

/-- Outcome of the admin account-toggle route. -/
inductive ToggleOutcome where
  | unauthorized
  | userNotFound
  | success
deriving DecidableEq, Repr

/-- The admin account-toggle route: admin RBAC and target lookup, then
`db.user.update({ where: { id: userId }, data: {} })` — the `data` object in
the source is empty (the role reassignment is commented out), so the update
rewrites the row with no field changed — and report success (201). -/
def toggleAccountPOST (db : DB) (callerId uid : String) (_disabled : Bool) :
    ToggleOutcome × DB :=
  match verifyAdminAccess db callerId with
  | none => (.unauthorized, db)
  | some _ =>
    match findUser db uid with
    | none => (.userNotFound, db)
    | some _ =>
      let db1 := updateUserWith db uid (fun u => u)
      (.success, db1)

/-- A user row with one credit and a matching one-entry ledger: the concrete
store for the content-unavailability scenario. -/
def wdbC3 : DB :=
  { users := [⟨"u1", "u1@example.com", 1, .USER⟩],
    transactions := [⟨0, "u1", 1, .GRANT, none, "seed grant"⟩],
    examHistories := [],
    readingQuestions := [],
    listeningQuestions := [],
    nextTxId := 1 }

/-- A concrete store with a user, an admin, a seeded ledger (a grant and a
purchase), one completed READING session and one in-progress WRITING session;
used to instantiate the universally quantified theorems. -/
def wdb : DB :=
  { users := [⟨"u1", "u1@example.com", 6, .USER⟩, ⟨"a1", "admin@example.com", 0, .ADMIN⟩],
    transactions :=
      [⟨0, "u1", 1, .GRANT, none, "seed grant"⟩,
       ⟨1, "u1", 5, .PURCHASE, some "pi_xyz", "Purchased Pack B - Standard"⟩],
    examHistories :=
      [⟨"e1", "u1", .READING, .COMPLETED, some (15/2), none, [], none⟩,
       ⟨"e2", "u1", .WRITING, .IN_PROGRESS, none, none, [], some .TASK_2⟩],
    readingQuestions := [],
    listeningQuestions := [],
    nextTxId := 2 }

theorem findMapPred {α : Type} (f : α → α) (p : α → Bool) (l : List α)
    (hp : ∀ a, p (f a) = p a) : (l.map f).find? p = (l.find? p).map f := by
  induction l with
  | nil => rfl
  | cons a l ih =>
    rw [List.map_cons]
    simp only [List.find?, hp a]
    cases h : p a <;> simp [h, ih]

theorem findUser_updateUserWith (db : DB) (uid cid : String) (f : User → User)
    (hid : ∀ u, (f u).id = u.id) :
    findUser (updateUserWith db uid f) cid
      = (findUser db cid).map (fun u => if u.id == uid then f u else u) := by
  unfold findUser updateUserWith
  exact findMapPred _ _ _ (fun a => by cases h : a.id == uid <;> simp [h, hid a])

theorem findExam_updateExam (db : DB) (examId eid : String)
    (f : ExamHistory → ExamHistory) (hid : ∀ e, (f e).id = e.id) :
    findExam (updateExam db examId f) eid
      = (findExam db eid).map (fun e => if e.id == examId then f e else e) := by
  unfold findExam updateExam
  exact findMapPred _ _ _ (fun a => by cases h : a.id == examId <;> simp [h, hid a])

theorem findTxById_annotateTx (db : DB) (tid : Nat) (r : String) (n : Nat) :
    findTxById (annotateTx db tid r) n
      = (findTxById db n).map (fun t => if t.txId == tid then { t with reason := r } else t) := by
  unfold findTxById annotateTx
  exact findMapPred _ _ _ (fun a => by cases h : a.txId == tid <;> simp [h])

theorem ledgerSum_appendTx (db : DB) (t : TxData) (uid : String) :
    ledgerSum (appendTx db t) uid
      = (if t.userId == uid then t.amount else 0) + ledgerSum db uid := by
  simp only [ledgerSum, appendTx, List.filter_cons]
  cases h : t.userId == uid <;> simp [h]

theorem ledgerSum_annotateTx (db : DB) (tid : Nat) (r uid : String) :
    ledgerSum (annotateTx db tid r) uid = ledgerSum db uid := by
  simp only [ledgerSum, annotateTx]
  induction db.transactions with
  | nil => rfl
  | cons a l ih =>
    rw [List.map_cons]
    simp only [List.filter_cons]
    cases h : a.txId == tid <;> cases h2 : a.userId == uid <;>
      simp_all [h, h2]

theorem bandScore_of_ge_100 (p : ℚ) (h : 100 ≤ p) : calculateBandScore p = 9 := by
  unfold calculateBandScore
  rw [if_pos h]

theorem bandScore_of_90 (p : ℚ) (h1 : (90:ℚ) ≤ p) (h2 : p < 100) :
    calculateBandScore p = 8.5 := by
  unfold calculateBandScore
  rw [if_neg (not_le.mpr h2), if_pos h1]

theorem bandScore_of_80 (p : ℚ) (h1 : (80:ℚ) ≤ p) (h2 : p < 90) :
    calculateBandScore p = 8 := by
  unfold calculateBandScore
  rw [if_neg (not_le.mpr (by linarith)), if_neg (not_le.mpr h2), if_pos h1]

theorem bandScore_of_70 (p : ℚ) (h1 : (70:ℚ) ≤ p) (h2 : p < 80) :
    calculateBandScore p = 7.5 := by
  unfold calculateBandScore
  rw [if_neg (not_le.mpr (by linarith)), if_neg (not_le.mpr (by linarith)),
    if_neg (not_le.mpr h2), if_pos h1]

theorem bandScore_of_60 (p : ℚ) (h1 : (60:ℚ) ≤ p) (h2 : p < 70) :
    calculateBandScore p = 7 := by
  unfold calculateBandScore
  rw [if_neg (not_le.mpr (by linarith)), if_neg (not_le.mpr (by linarith)),
    if_neg (not_le.mpr (by linarith)), if_neg (not_le.mpr h2), if_pos h1]

theorem bandScore_of_50 (p : ℚ) (h1 : (50:ℚ) ≤ p) (h2 : p < 60) :
    calculateBandScore p = 6.5 := by
  unfold calculateBandScore
  rw [if_neg (not_le.mpr (by linarith)), if_neg (not_le.mpr (by linarith)),
    if_neg (not_le.mpr (by linarith)), if_neg (not_le.mpr (by linarith)),
    if_neg (not_le.mpr h2), if_pos h1]

theorem bandScore_of_40 (p : ℚ) (h1 : (40:ℚ) ≤ p) (h2 : p < 50) :
    calculateBandScore p = 6 := by
  unfold calculateBandScore
  rw [if_neg (not_le.mpr (by linarith)), if_neg (not_le.mpr (by linarith)),
    if_neg (not_le.mpr (by linarith)), if_neg (not_le.mpr (by linarith)),
    if_neg (not_le.mpr (by linarith)), if_neg (not_le.mpr h2), if_pos h1]

theorem bandScore_of_30 (p : ℚ) (h1 : (30:ℚ) ≤ p) (h2 : p < 40) :
    calculateBandScore p = 5.5 := by
  unfold calculateBandScore
  rw [if_neg (not_le.mpr (by linarith)), if_neg (not_le.mpr (by linarith)),
    if_neg (not_le.mpr (by linarith)), if_neg (not_le.mpr (by linarith)),
    if_neg (not_le.mpr (by linarith)), if_neg (not_le.mpr (by linarith)),
    if_neg (not_le.mpr h2), if_pos h1]

theorem bandScore_of_20 (p : ℚ) (h1 : (20:ℚ) ≤ p) (h2 : p < 30) :
    calculateBandScore p = 5 := by
  unfold calculateBandScore
  rw [if_neg (not_le.mpr (by linarith)), if_neg (not_le.mpr (by linarith)),
    if_neg (not_le.mpr (by linarith)), if_neg (not_le.mpr (by linarith)),
    if_neg (not_le.mpr (by linarith)), if_neg (not_le.mpr (by linarith)),
    if_neg (not_le.mpr (by linarith)), if_neg (not_le.mpr h2), if_pos h1]

theorem bandScore_of_10 (p : ℚ) (h1 : (10:ℚ) ≤ p) (h2 : p < 20) :
    calculateBandScore p = 4.5 := by
  unfold calculateBandScore
  rw [if_neg (not_le.mpr (by linarith)), if_neg (not_le.mpr (by linarith)),
    if_neg (not_le.mpr (by linarith)), if_neg (not_le.mpr (by linarith)),
    if_neg (not_le.mpr (by linarith)), if_neg (not_le.mpr (by linarith)),
    if_neg (not_le.mpr (by linarith)), if_neg (not_le.mpr (by linarith)),
    if_neg (not_le.mpr h2), if_pos h1]

theorem bandScore_of_pos (p : ℚ) (h1 : 0 < p) (h2 : p < 10) :
    calculateBandScore p = 4 := by
  unfold calculateBandScore
  rw [if_neg (not_le.mpr (by linarith)), if_neg (not_le.mpr (by linarith)),
    if_neg (not_le.mpr (by linarith)), if_neg (not_le.mpr (by linarith)),
    if_neg (not_le.mpr (by linarith)), if_neg (not_le.mpr (by linarith)),
    if_neg (not_le.mpr (by linarith)), if_neg (not_le.mpr (by linarith)),
    if_neg (not_le.mpr (by linarith)), if_neg (not_le.mpr h2), if_pos h1]

theorem bandScore_of_nonpos (p : ℚ) (h1 : p ≤ 0) : calculateBandScore p = 0 := by
  unfold calculateBandScore
  rw [if_neg (not_le.mpr (by linarith)), if_neg (not_le.mpr (by linarith)),
    if_neg (not_le.mpr (by linarith)), if_neg (not_le.mpr (by linarith)),
    if_neg (not_le.mpr (by linarith)), if_neg (not_le.mpr (by linarith)),
    if_neg (not_le.mpr (by linarith)), if_neg (not_le.mpr (by linarith)),
    if_neg (not_le.mpr (by linarith)), if_neg (not_le.mpr (by linarith)),
    if_neg (not_lt.mpr h1)]

theorem bandScore_ub_4 (p : ℚ) (h : p < 10) : calculateBandScore p ≤ 4 := by
  rcases le_or_lt p 0 with h0 | h0
  · rw [bandScore_of_nonpos p h0]; norm_num
  · rw [bandScore_of_pos p h0 h]

theorem bandScore_ub_45 (p : ℚ) (h : p < 20) : calculateBandScore p ≤ 4.5 := by
  rcases le_or_lt 10 p with h1 | h1
  · rw [bandScore_of_10 p h1 h]
  · linarith [bandScore_ub_4 p h1]

theorem bandScore_ub_5 (p : ℚ) (h : p < 30) : calculateBandScore p ≤ 5 := by
  rcases le_or_lt 20 p with h1 | h1
  · rw [bandScore_of_20 p h1 h]
  · linarith [bandScore_ub_45 p h1]

theorem bandScore_ub_55 (p : ℚ) (h : p < 40) : calculateBandScore p ≤ 5.5 := by
  rcases le_or_lt 30 p with h1 | h1
  · rw [bandScore_of_30 p h1 h]
  · linarith [bandScore_ub_5 p h1]

theorem bandScore_ub_6 (p : ℚ) (h : p < 50) : calculateBandScore p ≤ 6 := by
  rcases le_or_lt 40 p with h1 | h1
  · rw [bandScore_of_40 p h1 h]
  · linarith [bandScore_ub_55 p h1]

theorem bandScore_ub_65 (p : ℚ) (h : p < 60) : calculateBandScore p ≤ 6.5 := by
  rcases le_or_lt 50 p with h1 | h1
  · rw [bandScore_of_50 p h1 h]
  · linarith [bandScore_ub_6 p h1]

theorem bandScore_ub_7 (p : ℚ) (h : p < 70) : calculateBandScore p ≤ 7 := by
  rcases le_or_lt 60 p with h1 | h1
  · rw [bandScore_of_60 p h1 h]
  · linarith [bandScore_ub_65 p h1]

theorem bandScore_ub_75 (p : ℚ) (h : p < 80) : calculateBandScore p ≤ 7.5 := by
  rcases le_or_lt 70 p with h1 | h1
  · rw [bandScore_of_70 p h1 h]
  · linarith [bandScore_ub_7 p h1]

theorem bandScore_ub_8 (p : ℚ) (h : p < 90) : calculateBandScore p ≤ 8 := by
  rcases le_or_lt 80 p with h1 | h1
  · rw [bandScore_of_80 p h1 h]
  · linarith [bandScore_ub_75 p h1]

theorem bandScore_ub_85 (p : ℚ) (h : p < 100) : calculateBandScore p ≤ 8.5 := by
  rcases le_or_lt 90 p with h1 | h1
  · rw [bandScore_of_90 p h1 h]
  · linarith [bandScore_ub_8 p h1]

theorem bandScore_ub_9 (p : ℚ) : calculateBandScore p ≤ 9 := by
  rcases le_or_lt 100 p with h1 | h1
  · rw [bandScore_of_ge_100 p h1]
  · linarith [bandScore_ub_85 p h1]

theorem bandScore_mono (p q : ℚ) (h : p ≤ q) :
    calculateBandScore p ≤ calculateBandScore q := by
  rcases le_or_lt 100 q with h100 | h100
  · rw [bandScore_of_ge_100 q h100]; exact bandScore_ub_9 p
  rcases le_or_lt 90 q with h90 | h90
  · rw [bandScore_of_90 q h90 h100]; exact bandScore_ub_85 p (by linarith)
  rcases le_or_lt 80 q with h80 | h80
  · rw [bandScore_of_80 q h80 h90]; exact bandScore_ub_8 p (by linarith)
  rcases le_or_lt 70 q with h70 | h70
  · rw [bandScore_of_70 q h70 h80]; exact bandScore_ub_75 p (by linarith)
  rcases le_or_lt 60 q with h60 | h60
  · rw [bandScore_of_60 q h60 h70]; exact bandScore_ub_7 p (by linarith)
  rcases le_or_lt 50 q with h50 | h50
  · rw [bandScore_of_50 q h50 h60]; exact bandScore_ub_65 p (by linarith)
  rcases le_or_lt 40 q with h40 | h40
  · rw [bandScore_of_40 q h40 h50]; exact bandScore_ub_6 p (by linarith)
  rcases le_or_lt 30 q with h30 | h30
  · rw [bandScore_of_30 q h30 h40]; exact bandScore_ub_55 p (by linarith)
  rcases le_or_lt 20 q with h20 | h20
  · rw [bandScore_of_20 q h20 h30]; exact bandScore_ub_5 p (by linarith)
  rcases le_or_lt 10 q with h10 | h10
  · rw [bandScore_of_10 q h10 h20]; exact bandScore_ub_45 p (by linarith)
  rcases lt_or_le 0 q with h0 | h0
  · rw [bandScore_of_pos q h0 h10]; exact bandScore_ub_4 p (by linarith)
  · rw [bandScore_of_nonpos q h0, bandScore_of_nonpos p (by linarith)]

theorem bandScore_min_4 (p : ℚ) (h : 0 < p) : 4 ≤ calculateBandScore p := by
  rcases le_or_lt 100 p with h1 | h1
  · rw [bandScore_of_ge_100 p h1]; norm_num
  rcases le_or_lt 90 p with h2 | h2
  · rw [bandScore_of_90 p h2 h1]; norm_num
  rcases le_or_lt 80 p with h3 | h3
  · rw [bandScore_of_80 p h3 h2]; norm_num
  rcases le_or_lt 70 p with h4 | h4
  · rw [bandScore_of_70 p h4 h3]; norm_num
  rcases le_or_lt 60 p with h5 | h5
  · rw [bandScore_of_60 p h5 h4]; norm_num
  rcases le_or_lt 50 p with h6 | h6
  · rw [bandScore_of_50 p h6 h5]; norm_num
  rcases le_or_lt 40 p with h7 | h7
  · rw [bandScore_of_40 p h7 h6]; norm_num
  rcases le_or_lt 30 p with h8 | h8
  · rw [bandScore_of_30 p h8 h7]; norm_num
  rcases le_or_lt 20 p with h9 | h9
  · rw [bandScore_of_20 p h9 h8]; norm_num
  rcases le_or_lt 10 p with h10 | h10
  · rw [bandScore_of_10 p h10 h9]; norm_num
  · rw [bandScore_of_pos p h h10]

/-- C8: the band-score conversion is a fixed nondecreasing step function:
100% maps to the top band 9, each decile `[10k, 10(k+1))` for `k = 1..9` maps
to band `4 + k/2`, any positive percentage below 10% maps to the fixed
minimum 4, and 0% maps to the floor band 0; in particular 3 of 4 correct
answers give percentage 75 and band 7.5. -/
theorem bandScore_step_function :
    (∀ p q : ℚ, p ≤ q → calculateBandScore p ≤ calculateBandScore q) ∧
    calculateBandScore 100 = 9 ∧
    calculateBandScore 0 = 0 ∧
    (∀ p : ℚ, 0 < p → 4 ≤ calculateBandScore p) ∧
    (∀ p : ℚ, 0 < p → p < 10 → calculateBandScore p = 4) ∧
    (∀ k : ℕ, 1 ≤ k → k ≤ 9 → ∀ p : ℚ,
        10 * (k : ℚ) ≤ p → p < 10 * ((k : ℚ) + 1) →
        calculateBandScore p = 4 + (k : ℚ) / 2) ∧
    percentageOf 3 4 = 75 ∧
    calculateBandScore (percentageOf 3 4) = 7.5 := by
  refine ⟨bandScore_mono, bandScore_of_ge_100 100 le_rfl, bandScore_of_nonpos 0 le_rfl,
    bandScore_min_4, bandScore_of_pos, ?_, ?_, ?_⟩
  · intro k hk1 hk9 p hlo hhi
    interval_cases k
    · norm_num at hlo hhi ⊢
      rw [bandScore_of_10 p hlo hhi]; norm_num
    · norm_num at hlo hhi ⊢
      rw [bandScore_of_20 p hlo hhi]
    · norm_num at hlo hhi ⊢
      rw [bandScore_of_30 p hlo hhi]; norm_num
    · norm_num at hlo hhi ⊢
      rw [bandScore_of_40 p hlo hhi]
    · norm_num at hlo hhi ⊢
      rw [bandScore_of_50 p hlo hhi]; norm_num
    · norm_num at hlo hhi ⊢
      rw [bandScore_of_60 p hlo hhi]
    · norm_num at hlo hhi ⊢
      rw [bandScore_of_70 p hlo hhi]; norm_num
    · norm_num at hlo hhi ⊢
      rw [bandScore_of_80 p hlo hhi]
    · norm_num at hlo hhi ⊢
      rw [bandScore_of_90 p hlo hhi]; norm_num
  · norm_num [percentageOf]
  · have h75 : percentageOf 3 4 = 75 := by norm_num [percentageOf]
    rw [h75, bandScore_of_70 75 (by norm_num) (by norm_num)]

/-- Witness for C8: the monotone and decile components applied at 50 ≤ 75. -/
theorem bandScore_step_function_witness :
    calculateBandScore 50 ≤ calculateBandScore 75 ∧ calculateBandScore 75 = 7.5 := by
  constructor
  · exact bandScore_step_function.1 50 75 (by norm_num)
  · have h := bandScore_step_function.2.2.2.2.2.1 7 (by norm_num) (by norm_num) 75
      (by norm_num) (by norm_num)
    rw [h]; norm_num

/-- C4 counterexample: the claimed case-insensitive array comparison fails on
the spec's own Scenario D — submission `["France","Paris"]` against correct
answer `["paris","france"]` is judged incorrect, because `includes` uses JS
strict equality, which is case-sensitive. -/
theorem compareAnswers_scenarioD_counterexample :
    compareAnswers (.arr [.str "France", .str "Paris"])
      (.arr [.str "paris", .str "france"]) = false := by
  rfl

/-- C4 (amended): array answers are judged order-independently but
case-SENSITIVELY — equal exactly when the lengths match and every required
value is strictly (`===`) present in the submission; the same-case reordering
`["france","paris"]` of `["paris","france"]` is judged correct. -/
theorem compareAnswers_array_set_semantics :
    (∀ cs us : List JsonVal,
        compareAnswers (.arr us) (.arr cs) = true ↔
          (cs.length = us.length ∧ ∀ v ∈ cs, ∃ u ∈ us, strictEq u v = true)) ∧
    compareAnswers (.arr [.str "france", .str "paris"])
      (.arr [.str "paris", .str "france"]) = true := by
  constructor
  · intro cs us
    simp only [compareAnswers]
    by_cases h : cs.length = us.length
    · simp [h, List.all_eq_true, List.any_eq_true]
    · simp [bne_eq_false_iff_eq, h]
  · rfl

/-- Witness for C4 (amended): a singleton exact match judged correct through
the set-semantics characterization. -/
theorem compareAnswers_array_set_semantics_witness :
    compareAnswers (.arr [.str "x"]) (.arr [.str "x"]) = true :=
  (compareAnswers_array_set_semantics.1 [.str "x"] [.str "x"]).mpr
    ⟨rfl, by simp [strictEq]⟩

/-- C3 (code bug, evaluated at the failing input): starting an exam with zero
published content against a balanced one-credit user returns
content-unavailable, but the balance becomes 2 instead of staying 1: the
`-1 USAGE` deduction was rolled back with the aborted transaction, yet the
catch-block still applied the `+1 USAGE_FAIL` restore, so the ledger ends
with two `+1` entries and no `-1` entry. -/
theorem startExam_contentUnavailable_overcredits :
    (startExam wdbC3 "u1" .READING 0 "e1").1 = .contentUnavailable ∧
    creditsOf wdbC3 "u1" = 1 ∧
    creditsOf (startExam wdbC3 "u1" .READING 0 "e1").2 "u1" = 2 ∧
    ((startExam wdbC3 "u1" .READING 0 "e1").2.transactions.map (fun t => t.amount))
      = [1, 1] := by
  refine ⟨rfl, rfl, rfl, rfl⟩

/-- C7: the submit route fails NotFound when no session has the exam id,
Forbidden when the caller is not the owner, and AlreadySubmitted when the
session is already COMPLETED; in each case the store — hence the stored score
and answers of the first submission — is unchanged. -/
theorem submitExam_guard_paths (db : DB) (callerId examId : String)
    (answers : List (String × JsonVal)) :
    (findExam db examId = none →
        submitExam db callerId examId answers = (.notFound, db)) ∧
    (∀ e, findExam db examId = some e → e.userId ≠ callerId →
        submitExam db callerId examId answers = (.forbidden, db)) ∧
    (∀ e, findExam db examId = some e → e.userId = callerId →
        e.status = .COMPLETED →
        submitExam db callerId examId answers = (.alreadySubmitted, db)) := by
  refine ⟨?_, ?_, ?_⟩
  · intro h
    unfold submitExam
    rw [h]
  · intro e he hne
    unfold submitExam
    rw [he]
    have hb : (e.userId != callerId) = true := bne_iff_ne.mpr hne
    simp [hb]
  · intro e he hown hst
    unfold submitExam
    rw [he]
    have hb : (e.userId != callerId) = false := by simp [hown]
    have hc : (e.status == ExamStatus.COMPLETED) = true := by rw [hst]; rfl
    simp [hb, hc]

/-- Witness for C7: re-submitting the already-completed session `e1` fails
AlreadySubmitted and leaves the store unchanged. -/
theorem submitExam_guard_paths_witness :
    submitExam wdb "u1" "e1" [] = (.alreadySubmitted, wdb) :=
  (submitExam_guard_paths wdb "u1" "e1" []).2.2
    ⟨"e1", "u1", .READING, .COMPLETED, some (15/2), none, [], none⟩ rfl rfl rfl

/-- C10: for every existing target user and either flag value, the admin
account-toggle endpoint performs an update with an empty data object — no
user field changes, so the whole store is unchanged — while still reporting
success. -/
theorem toggleAccount_updates_nothing (db : DB) (callerId uid : String) (d : Bool)
    (a : User) (hadmin : verifyAdminAccess db callerId = some a)
    (u : User) (huser : findUser db uid = some u) :
    toggleAccountPOST db callerId uid d = (.success, db) := by
  unfold toggleAccountPOST
  rw [hadmin, huser]
  have hmap : db.users.map (fun x => if x.id == uid then x else x) = db.users := by
    simp
  simp only [updateUserWith, hmap]

/-- Witness for C10: toggling the existing user `u1` as admin `a1` reports
success and changes nothing. -/
theorem toggleAccount_updates_nothing_witness :
    toggleAccountPOST wdb "a1" "u1" true = (.success, wdb) :=
  toggleAccount_updates_nothing wdb "a1" "u1" true
    ⟨"a1", "admin@example.com", 0, .ADMIN⟩ rfl
    ⟨"u1", "u1@example.com", 6, .USER⟩ rfl

/-- C2: for a payment event whose intent id is not yet in the ledger, the
first reconcile credits the pack amount; re-delivering the identical event
returns success with zero ledger or balance mutations (the store is returned
unchanged), the balance has increased by the pack amount exactly once, and
exactly one ledger entry carries the payment reference. -/
theorem reconcile_exactly_once (db : DB) (uid pid pi : String) (pack : CreditPack)
    (hnone : findTxByIntent db pi = none)
    (hpack : getCreditPackById pid = some pack)
    (huser : ∃ u, findUser db uid = some u) :
    (handleCheckoutSessionCompleted db (some uid) (some pid) (some pi)).1
        = .credited pack.credits ∧
    handleCheckoutSessionCompleted
        (handleCheckoutSessionCompleted db (some uid) (some pid) (some pi)).2
        (some uid) (some pid) (some pi)
      = (.alreadyProcessed,
         (handleCheckoutSessionCompleted db (some uid) (some pid) (some pi)).2) ∧
    creditsOf (handleCheckoutSessionCompleted db (some uid) (some pid) (some pi)).2 uid
      = creditsOf db uid + pack.credits ∧
    ((handleCheckoutSessionCompleted db (some uid) (some pid) (some pi)).2.transactions.filter
        (fun t => t.stripePaymentIntentId == some pi)).length = 1 := by
  obtain ⟨u, hu⟩ := huser
  have hcall : handleCheckoutSessionCompleted db (some uid) (some pid) (some pi)
      = (.credited pack.credits,
         appendTx (updateUserCredits db uid pack.credits)
           ⟨uid, pack.credits, .PURCHASE, some pi, "Purchased " ++ pack.name⟩) := by
    show handleCheckoutValid db uid pid pi = _
    unfold handleCheckoutValid
    simp only [hnone, hpack, hu]
  rw [hcall]
  refine ⟨rfl, ?_, ?_, ?_⟩
  · show handleCheckoutValid _ uid pid pi = _
    unfold handleCheckoutValid
    have hfound : findTxByIntent
        (appendTx (updateUserCredits db uid pack.credits)
          ⟨uid, pack.credits, .PURCHASE, some pi, "Purchased " ++ pack.name⟩) pi
        = some ⟨(updateUserCredits db uid pack.credits).nextTxId, uid, pack.credits,
            .PURCHASE, some pi, "Purchased " ++ pack.name⟩ := by
      unfold findTxByIntent appendTx
      simp [List.find?]
    rw [hfound]
  · have hid : (u.id == uid) = true := by
      have h2 : db.users.find? (fun x => x.id == uid) = some u := hu
      simpa using List.find?_some h2
    have hfu := findUser_updateUserWith db uid uid
      (fun v => { v with credits := v.credits + pack.credits }) (fun v => rfl)
    unfold creditsOf
    have husers : findUser (appendTx (updateUserCredits db uid pack.credits)
        ⟨uid, pack.credits, .PURCHASE, some pi, "Purchased " ++ pack.name⟩) uid
        = findUser (updateUserCredits db uid pack.credits) uid := rfl
    rw [husers]
    unfold updateUserCredits at hfu ⊢
    rw [hfu, hu]
    have hueq : u.id = uid := by simpa using hid
    simp [hueq]
  · have hall : ∀ t ∈ db.transactions, ¬ (t.stripePaymentIntentId == some pi) = true := by
      intro t ht
      exact List.find?_eq_none.mp hnone t ht
    have hnil : db.transactions.filter
        (fun t => t.stripePaymentIntentId == some pi) = [] := by
      rw [List.filter_eq_nil_iff]
      exact hall
    simp only [appendTx, List.filter_cons]
    have hpred : ((some pi == some pi) : Bool) = true := by simp
    simp only [updateUserCredits, updateUserWith] at hnil ⊢
    simp [hpred, hnil]

/-- C9: when the grading collaborator fails on a writing submission, the
route still reports a graded success (no error surfaced), applies the
deterministic word-count fallback score with zero recorded AI cost, and marks
the session COMPLETED. -/
theorem writingSubmit_fallback_on_grading_failure (db : DB)
    (callerId examId text : String) (ts : Option Nat)
    (e : ExamHistory) (tt : TaskType)
    (hfind : findExam db examId = some e)
    (howner : e.userId = callerId)
    (hstatus : e.status ≠ .COMPLETED)
    (htype : e.examType = .WRITING)
    (hprompt : e.promptTaskType = some tt) :
    (submitWritingPOST db callerId examId text ts none).1
        = .graded (fallbackScore tt (jsWordCount text)) ∧
    ((findExam (submitWritingPOST db callerId examId text ts none).2 examId).map
        (fun x => x.status)) = some .COMPLETED ∧
    ((findExam (submitWritingPOST db callerId examId text ts none).2 examId).map
        (fun x => x.score)) = some (some (fallbackScore tt (jsWordCount text))) ∧
    ((findExam (submitWritingPOST db callerId examId text ts none).2 examId).map
        (fun x => x.aiCost)) = some (some 0) := by
  have hid : (e.id == examId) = true := by
    have h2 : db.examHistories.find? (fun x => x.id == examId) = some e := hfind
    simpa using List.find?_some h2
  have hb1 : (e.userId != callerId) = false := by simp [howner]
  have hb2 : (e.status == ExamStatus.COMPLETED) = false := by
    cases hs : e.status
    · rfl
    · exact absurd hs hstatus
    · rfl
  have hb3 : (e.examType != ExamType.WRITING) = false := by rw [htype]; rfl
  have hroute : submitWritingPOST db callerId examId text ts none
      = (.graded (fallbackScore tt (jsWordCount text)),
         updateExam db examId (fun x =>
           { x with
               status := .COMPLETED,
               score := some (fallbackScore tt (jsWordCount text)),
               aiCost := some (0 : ℚ),
               answers := [("text", .str text)] })) := by
    unfold submitWritingPOST
    rw [hfind]
    simp [hb1, hb2, hb3, hprompt, gradeWritingEssayWithFallback]
  rw [hroute]
  have hupd := findExam_updateExam db examId examId (fun x =>
    { x with
        status := ExamStatus.COMPLETED,
        score := some (fallbackScore tt (jsWordCount text)),
        aiCost := some (0 : ℚ),
        answers := [("text", .str text)] }) (fun x => rfl)
  have hideq : e.id = examId := by simpa using hid
  refine ⟨rfl, ?_, ?_, ?_⟩ <;>
    rw [hupd, hfind] <;> simp [hideq]

/-- Witness for C2: redelivering the `pi_new` checkout event to the seeded
store is answered as an already-processed success with no store change. -/
theorem reconcile_exactly_once_witness :
    handleCheckoutSessionCompleted
        (handleCheckoutSessionCompleted wdb (some "u1") (some "pack_b") (some "pi_new")).2
        (some "u1") (some "pack_b") (some "pi_new")
      = (.alreadyProcessed,
         (handleCheckoutSessionCompleted wdb (some "u1") (some "pack_b") (some "pi_new")).2) :=
  (reconcile_exactly_once wdb "u1" "pack_b" "pi_new"
    ⟨"pack_b", "Pack B - Standard", 19.99, 5⟩ rfl rfl
    ⟨⟨"u1", "u1@example.com", 6, .USER⟩, rfl⟩).2.1

/-- Witness for C9: submitting the in-progress WRITING session `e2` with a
failed grading collaborator reports the fallback score as a graded success. -/
theorem writingSubmit_fallback_witness :
    (submitWritingPOST wdb "u1" "e2" "a short essay" none none).1
      = .graded (fallbackScore .TASK_2 (jsWordCount "a short essay")) :=
  (writingSubmit_fallback_on_grading_failure wdb "u1" "e2" "a short essay" none
    ⟨"e2", "u1", .WRITING, .IN_PROGRESS, none, none, [], some .TASK_2⟩ .TASK_2
    rfl rfl (by decide) rfl rfl).1

theorem refund_no_mutation_without_stripe (db : DB) (c : String) (n : Nat) (s : Bool) :
    (refundPOST db c n s).stripeInvoked = false → (refundPOST db c n s).db = db := by
  unfold refundPOST
  cases hA : findUser db c with
  | none => intro _; rfl
  | some a2 =>
    dsimp only
    cases hR : a2.role != Role.ADMIN
    case true => intro _; rfl
    case false =>
      simp only [Bool.false_eq_true, if_false]
      cases hT : findTxById db n with
      | none => intro _; rfl
      | some t =>
        dsimp only
        cases hP : t.txType != TxType.PURCHASE
        case true => intro _; rfl
        case false =>
          simp only [Bool.false_eq_true, if_false]
          cases hI : t.stripePaymentIntentId with
          | none => intro _; rfl
          | some pi =>
            dsimp only
            cases hE : db.transactions.find? (fun r =>
                r.stripePaymentIntentId == some pi && r.txType == TxType.REFUND) with
            | some _ => intro _; rfl
            | none =>
              dsimp only
              cases s
              case false => intro h; simp at h
              case true => intro h; simp at h

/-- C6: with all refund preconditions met, a failing external reversal makes
the handler abort with the external-service error and zero ledger or balance
changes (the store is returned untouched, though the reversal was invoked);
and — in any state — the handler never mutates the store without having
invoked the external reversal first. -/
theorem refund_external_failure_aborts (db : DB) (callerId : String) (tid : Nat)
    (a : User) (t : CreditTransaction) (pi : String)
    (hadmin : findUser db callerId = some a) (hrole : a.role = .ADMIN)
    (htx : findTxById db tid = some t) (htype : t.txType = .PURCHASE)
    (hpi : t.stripePaymentIntentId = some pi)
    (hnoref : db.transactions.find? (fun r =>
        r.stripePaymentIntentId == some pi && r.txType == .REFUND) = none) :
    refundPOST db callerId tid false = ⟨.stripeError, db, true⟩ ∧
    (∀ (db2 : DB) (c : String) (n : Nat) (s : Bool),
        (refundPOST db2 c n s).stripeInvoked = false →
        (refundPOST db2 c n s).db = db2) := by
  constructor
  · have hr : (a.role != Role.ADMIN) = false := by rw [hrole]; rfl
    have ht2 : (t.txType != TxType.PURCHASE) = false := by rw [htype]; rfl
    unfold refundPOST
    simp [hadmin, hr, ht2, htx, hpi, hnoref]
  · exact fun db2 c n s => refund_no_mutation_without_stripe db2 c n s

/-- C5: with all refund preconditions met and a succeeding external reversal,
the first call refunds; repeating the call on the same transaction id against
the resulting store fails AlreadyRefunded, performs zero further ledger or
balance mutations (the store is returned unchanged), and does not invoke the
external reversal again. -/
theorem refund_idempotent (db : DB) (callerId : String) (tid : Nat)
    (a : User) (t : CreditTransaction) (pi : String)
    (hfresh : TxIdsFresh db)
    (hadmin : findUser db callerId = some a) (hrole : a.role = .ADMIN)
    (htx : findTxById db tid = some t) (htype : t.txType = .PURCHASE)
    (hpi : t.stripePaymentIntentId = some pi)
    (hnoref : db.transactions.find? (fun r =>
        r.stripePaymentIntentId == some pi && r.txType == .REFUND) = none) :
    (refundPOST db callerId tid true).outcome = .refunded ∧
    (∀ s, refundPOST (refundPOST db callerId tid true).db callerId tid s
        = ⟨.alreadyRefunded, (refundPOST db callerId tid true).db, false⟩) := by
  have hr : (a.role != Role.ADMIN) = false := by rw [hrole]; rfl
  have ht2 : (t.txType != TxType.PURCHASE) = false := by rw [htype]; rfl
  set db1 := updateUserCredits db t.userId (-t.amount) with hdb1
  set db2 := annotateTx db1 t.txId (t.reason ++ " - REFUNDED") with hdb2
  set db3 := appendTx db2
    ⟨t.userId, -t.amount, .REFUND, some pi, "Refund of " ++ t.reason⟩ with hdb3
  have hcall : refundPOST db callerId tid true = ⟨.refunded, db3, true⟩ := by
    unfold refundPOST
    simp [hadmin, hr, ht2, htx, hpi, hnoref, hdb1, hdb2, hdb3]
  refine ⟨by rw [hcall], ?_⟩
  intro s
  rw [hcall]
  show refundPOST db3 callerId tid s = ⟨.alreadyRefunded, db3, false⟩
  have hu3 : findUser db3 callerId
      = some (if a.id == t.userId then { a with credits := a.credits + -t.amount } else a) := by
    have h0 : findUser db3 callerId = findUser db1 callerId := rfl
    rw [h0, hdb1]
    unfold updateUserCredits
    rw [findUser_updateUserWith db t.userId callerId
      (fun v => { v with credits := v.credits + -t.amount }) (fun v => rfl), hadmin]
    rfl
  have hrole3 : ((if a.id == t.userId then
      { a with credits := a.credits + -t.amount } else a).role != Role.ADMIN) = false := by
    cases h : a.id == t.userId <;> simp [h, hrole] <;> rfl
  have htid : (t.txId == tid) = true := by
    have h2 : db.transactions.find? (fun x => x.txId == tid) = some t := htx
    simpa using List.find?_some h2
  have htideq : t.txId = tid := by simpa using htid
  have hmem : t ∈ db.transactions := by
    have h2 : db.transactions.find? (fun x => x.txId == tid) = some t := htx
    exact List.mem_of_find?_eq_some h2
  have hlt : tid < db.nextTxId := htideq ▸ hfresh t hmem
  have hne : db.nextTxId ≠ tid := by omega
  have hnew : ((db.nextTxId == tid) : Bool) = false := by simp [hne]
  have htx3 : findTxById db3 tid = some { t with reason := t.reason ++ " - REFUNDED" } := by
    show (⟨db.nextTxId, t.userId, -t.amount, .REFUND, some pi,
        "Refund of " ++ t.reason⟩ :: db2.transactions).find? (fun x => x.txId == tid)
      = some { t with reason := t.reason ++ " - REFUNDED" }
    simp only [List.find?, hnew]
    have h4 : findTxById db2 tid
        = some { t with reason := t.reason ++ " - REFUNDED" } := by
      rw [hdb2, findTxById_annotateTx]
      have h5 : findTxById db1 tid = some t := htx
      rw [h5]
      simp [htideq]
    exact h4
  have ht2' : (({ t with reason := t.reason ++ " - REFUNDED" } :
      CreditTransaction).txType != TxType.PURCHASE) = false := ht2
  have hpi' : ({ t with reason := t.reason ++ " - REFUNDED" } :
      CreditTransaction).stripePaymentIntentId = some pi := hpi
  have href3 : db3.transactions.find? (fun r =>
      r.stripePaymentIntentId == some pi && r.txType == TxType.REFUND)
      = some ⟨db.nextTxId, t.userId, -t.amount, .REFUND, some pi,
          "Refund of " ++ t.reason⟩ := by
    show (⟨db.nextTxId, t.userId, -t.amount, .REFUND, some pi,
        "Refund of " ++ t.reason⟩ :: db2.transactions).find? _ = _
    have hp : ((some pi == some pi && (TxType.REFUND == TxType.REFUND)) : Bool) = true := by
      rw [beq_self_eq_true]
      rfl
    simp only [List.find?, hp]
  unfold refundPOST
  rw [hu3]
  dsimp only
  rw [hrole3]
  simp only [Bool.false_eq_true, if_false]
  rw [htx3]
  dsimp only
  rw [ht2']
  simp only [Bool.false_eq_true, if_false]
  rw [hpi']
  dsimp only
  rw [href3]

/-- Witness for C5: refunding the seeded purchase (transaction 1) twice — the
second call fails AlreadyRefunded on the unchanged store without invoking the
external reversal. -/
theorem refund_idempotent_witness :
    refundPOST (refundPOST wdb "a1" 1 true).db "a1" 1 true
      = ⟨.alreadyRefunded, (refundPOST wdb "a1" 1 true).db, false⟩ :=
  (refund_idempotent wdb "a1" 1 ⟨"a1", "admin@example.com", 0, .ADMIN⟩
    ⟨1, "u1", 5, .PURCHASE, some "pi_xyz", "Purchased Pack B - Standard"⟩ "pi_xyz"
    (by unfold TxIdsFresh; decide) rfl rfl rfl rfl rfl rfl).2 true

/-- Witness for C6: a failing external reversal on the seeded purchase aborts
with the external-service error and the untouched store. -/
theorem refund_external_failure_aborts_witness :
    refundPOST wdb "a1" 1 false = ⟨.stripeError, wdb, true⟩ :=
  (refund_external_failure_aborts wdb "a1" 1 ⟨"a1", "admin@example.com", 0, .ADMIN⟩
    ⟨1, "u1", 5, .PURCHASE, some "pi_xyz", "Purchased Pack B - Standard"⟩ "pi_xyz"
    rfl rfl rfl rfl rfl rfl).1

theorem balanced_shift (db : DB) (uid : String) (d : Int) (db2 : DB)
    (husers : db2.users = db.users.map
      (fun u => if u.id == uid then { u with credits := u.credits + d } else u))
    (hsum : ∀ w, ledgerSum db2 w = (if uid == w then d else 0) + ledgerSum db w)
    (hb : Balanced db) : Balanced db2 := by
  intro u hu
  rw [husers] at hu
  obtain ⟨v, hv, rfl⟩ := List.mem_map.mp hu
  cases h : v.id == uid
  · simp only [h, Bool.false_eq_true, if_false]
    have h2 : v.id ≠ uid := by simpa using h
    have h3 : ((uid == v.id) : Bool) = false := by simpa using Ne.symm h2
    rw [hsum, h3]
    simp only [Bool.false_eq_true, if_false]
    rw [hb v hv]
    omega
  · simp only [h, if_true]
    have he : v.id = uid := by simpa using h
    have h4 : ((uid == v.id) : Bool) = true := by simpa using he.symm
    rw [hsum]
    rw [h4]
    simp only [if_true]
    rw [hb v hv]
    omega

theorem balanced_updateAppend (db : DB) (uid : String) (d : Int) (ty : TxType)
    (opid : Option String) (r : String) (hb : Balanced db) :
    Balanced (appendTx (updateUserCredits db uid d) ⟨uid, d, ty, opid, r⟩) := by
  refine balanced_shift db uid d _ rfl (fun w => ?_) hb
  rw [ledgerSum_appendTx]
  rfl

theorem balanced_refundChain (db : DB) (uid : String) (d : Int) (tid : Nat)
    (r r2 : String) (opid : Option String) (ty : TxType) (hb : Balanced db) :
    Balanced (appendTx (annotateTx (updateUserCredits db uid d) tid r)
      ⟨uid, d, ty, opid, r2⟩) := by
  refine balanced_shift db uid d _ rfl (fun w => ?_) hb
  rw [ledgerSum_appendTx, ledgerSum_annotateTx]
  rfl

theorem balanced_of_same_tables (db db2 : DB) (hu : db2.users = db.users)
    (ht : db2.transactions = db.transactions) (hb : Balanced db) : Balanced db2 := by
  intro u hu2
  rw [hu] at hu2
  rw [hb u hu2]
  unfold ledgerSum
  rw [ht]

theorem balanced_startExam (db : DB) (uid : String) (ty : ExamType)
    (pc : Nat) (eid : String) (hb : Balanced db) :
    Balanced (startExam db uid ty pc eid).2 := by
  unfold startExam
  cases findUser db uid with
  | none => exact hb
  | some user =>
    dsimp only
    split
    · exact hb
    · unfold startExamTxn
      dsimp only
      cases hz : ((pc == 0) : Bool)
      case false =>
        exact balanced_of_same_tables _ _ rfl rfl
          (balanced_updateAppend db uid (-1) .USAGE none "Started exam" hb)
      case true =>
        exact balanced_updateAppend db uid 1 .USAGE_FAIL none
          "Credit restored - no published content available" hb

theorem balanced_handleCheckout (db : DB) (x y z : Option String)
    (hb : Balanced db) : Balanced (handleCheckoutSessionCompleted db x y z).2 := by
  unfold handleCheckoutSessionCompleted handleCheckoutValid
  repeat' split
  all_goals first
    | exact hb
    | exact balanced_updateAppend db _ _ .PURCHASE _ _ hb

theorem balanced_refundPOST (db : DB) (c : String) (tid : Nat) (s : Bool)
    (hb : Balanced db) : Balanced (refundPOST db c tid s).db := by
  unfold refundPOST
  repeat' split
  all_goals first
    | exact hb
    | exact balanced_refundChain db _ _ _ _ _ _ .REFUND hb

theorem balanced_grant (db : DB) (c uid : String) (amount : Int) (r : String)
    (hb : Balanced db) : Balanced (grantCreditsPOST db c uid amount r).2 := by
  unfold grantCreditsPOST
  repeat' split
  all_goals first
    | exact hb
    | exact balanced_updateAppend db uid amount .GRANT none r hb

theorem balanced_revoke (db : DB) (c uid : String) (amount : Int) (r : String)
    (hb : Balanced db) : Balanced (revokeCreditsPOST db c uid amount r).2 := by
  unfold revokeCreditsPOST
  repeat' split
  all_goals first
    | exact hb
    | exact balanced_updateAppend db uid (-amount) .REFUND none r hb

/-- C1: every balance-affecting core operation — exam start (including the
content-unavailability compensation path), payment reconciliation, refund, and
admin grant/revoke — preserves the invariant that each user's cached credits
equal the sum of that user's ledger-entry amounts, provided it held before. -/
theorem ledger_balance_invariant :
    (∀ (db : DB) (uid : String) (ty : ExamType) (pc : Nat) (eid : String),
        Balanced db → Balanced (startExam db uid ty pc eid).2) ∧
    (∀ (db : DB) (x y z : Option String),
        Balanced db → Balanced (handleCheckoutSessionCompleted db x y z).2) ∧
    (∀ (db : DB) (c : String) (tid : Nat) (s : Bool),
        Balanced db → Balanced (refundPOST db c tid s).db) ∧
    (∀ (db : DB) (c uid : String) (amount : Int) (r : String),
        Balanced db → Balanced (grantCreditsPOST db c uid amount r).2) ∧
    (∀ (db : DB) (c uid : String) (amount : Int) (r : String),
        Balanced db → Balanced (revokeCreditsPOST db c uid amount r).2) :=
  ⟨fun db uid ty pc eid hb => balanced_startExam db uid ty pc eid hb,
   fun db x y z hb => balanced_handleCheckout db x y z hb,
   fun db c tid s hb => balanced_refundPOST db c tid s hb,
   fun db c uid amount r hb => balanced_grant db c uid amount r hb,
   fun db c uid amount r hb => balanced_revoke db c uid amount r hb⟩

/-- Witness for C1: the balanced seeded store stays balanced across a
content-unavailable exam start, a reconcile, and a refund. -/
theorem ledger_balance_invariant_witness :
    Balanced (startExam wdb "u1" .READING 0 "e9").2 ∧
    Balanced (handleCheckoutSessionCompleted wdb (some "u1") (some "pack_a")
      (some "pi_w")).2 ∧
    Balanced (refundPOST wdb "a1" 1 true).db :=
  ⟨ledger_balance_invariant.1 wdb "u1" .READING 0 "e9" (by unfold Balanced; decide),
   ledger_balance_invariant.2.1 wdb (some "u1") (some "pack_a") (some "pi_w")
     (by unfold Balanced; decide),
   ledger_balance_invariant.2.2.1 wdb "a1" 1 true (by unfold Balanced; decide)⟩

end Profile
